import Mathlib

/-!
Verification development for the wallet-provisioning configurators
(node_configurator_generate_wallet.rs and node_configurator_recover_wallet.rs).

The two Rust source files are embedded shallowly: interactive streams become
explicit state (a list of pending stdin reads, an accumulated stdout log, and
an event trace recording each secret-producing step), and the three distinct
termination modes of the Rust code (returning a structured ConfiguratorError,
panicking, and calling exit_process) become constructors of an Outcome type.
Collaborator functions that live outside the two source files are modelled
from the specification; each such definition says so in its doc comment.
-/

namespace Masq

/-- The BIP39 wordlist languages of the bip39 crate. -/
inductive Language where
| english
| chineseSimplified
| chineseTraditional
| french
| italian
| japanese
| korean
| spanish
deriving DecidableEq, Repr

/-- Modelled from the spec: the display-name mapping of
Bip39::name_from_language (crate::blockchain::bip39, not under src/).
The English and French names are fixed by the unit tests in
node_configurator_recover_wallet.rs. -/
def nameFromLanguage : Language → String
| .english => "English"
| .chineseSimplified => "中文(简体)"
| .chineseTraditional => "中文(繁體)"
| .french => "Français"
| .italian => "Italiano"
| .japanese => "日本語"
| .korean => "한국어"
| .spanish => "Español"

/-- Modelled from the spec: Bip39::language_from_name
(crate::blockchain::bip39, not under src/): maps the value of the
--language argument to a Language. -/
def languageFromName (s : String) : Language :=
if s == "english" then .english
else if s == "español" then .spanish
else if s == "français" then .french
else if s == "italiano" then .italian
else if s == "日本語" then .japanese
else if s == "한국어" then .korean
else if s == "中文(简体)" then .chineseSimplified
else if s == "中文(繁體)" then .chineseTraditional
else .english

/-- Trace events marking each secret-producing or assembling step of a flow. -/
inductive Event where
| mnemonicGenerated
| mnemonicPrompted
| passphrasePrompted
| seedDerived
| walletDerived (path : String)
| configAssembled
deriving DecidableEq, Repr

/-- The interactive-stream and trace state threaded through a flow:
pending stdin reads, the stdout log, and the event trace. -/
structure St where
stdin : List String
stdout : List String
events : List Event
deriving DecidableEq, Repr

/-- flushed_write: append a string to the stdout log. -/
def St.write (st : St) (s : String) : St :=
{ st with stdout := st.stdout ++ [s] }

/-- Record an event in the trace. -/
def St.emit (st : St) (e : Event) : St :=
{ st with events := st.events ++ [e] }

/-- One buffered line read from stdin. Reading at end of input returns the
empty string, matching Read::read returning Ok(0) on an exhausted stream
(the blank-passphrase unit test depends on this). -/
def St.readLine (st : St) : String × St :=
match st.stdin with
| [] => ("", st)
| l :: rest => (l, { st with stdin := rest })

/-- The one-byte acknowledgment read (streams.stdin.read of a single byte,
result discarded): consumes one pending input if any. -/
def St.readAck (st : St) : St :=
match st.stdin with
| [] => st
| _ :: rest => { st with stdin := rest }

/-- The PersistentConfigError variants exercised by these flows. -/
inductive PersistentConfigError where
| notPresent
| databaseError (s : String)
deriving DecidableEq, Repr

/-- A ConfiguratorError attributed to one parameter, as produced by
PersistentConfigError::into_configurator_error. -/
structure ConfiguratorError where
parameter : String
reason : PersistentConfigError
deriving DecidableEq, Repr

/-- into_configurator_error: attribute a persistent-config error to a
parameter name. -/
def PersistentConfigError.intoConfiguratorError
(pce : PersistentConfigError) (parameter : String) : ConfiguratorError :=
⟨parameter, pce⟩

/-- How one call of a flow function terminates: normal return, structured
configurator error, Rust panic, or exit_process. Every constructor carries
the state at termination so that trace properties can be stated uniformly. -/
inductive Outcome (α : Type) where
| ok (a : α) (s : St)
| err (e : ConfiguratorError) (s : St)
| panicked (msg : String) (s : St)
| exited (code : Nat) (msg : String) (s : St)
deriving DecidableEq, Repr

/-- The state at termination, whichever way the computation ended. -/
def Outcome.finalSt : Outcome α → St
| .ok _ s => s
| .err _ s => s
| .panicked _ s => s
| .exited _ _ s => s

/-- Sequencing that propagates errors, panics and exits. -/
def Outcome.obind : Outcome α → (α → St → Outcome β) → Outcome β
| .ok a s, f => f a s
| .err e s, _ => .err e s
| .panicked m s, _ => .panicked m s
| .exited c m s, _ => .exited c m s

/-- The Either type used for earning-wallet information: Left an address
string, Right a derivation path. -/
inductive Either (α β : Type) where
| left (a : α)
| right (b : β)
deriving DecidableEq, Repr

/-- A mnemonic phrase (the bip39 Mnemonic, reduced to its phrase). -/
structure Mnemonic where
phrase : String
deriving DecidableEq, Repr

/-- A BIP32 key pair, reduced to the address its Wallet formats to. -/
structure KeyPair where
address : String
deriving DecidableEq, Repr

/-- The external cryptographic and entropy collaborators, abstracted:
mnemonicMake is the MnemonicFactory (word count and language to a fresh
mnemonic), bip39Seed is Bip39::seed on (phrase, passphrase), bip32FromRaw is
Bip32ECKeyPair::from_raw on (seed bytes, derivation path) with failure as
none, walletFromStr is Wallet::from_str, wordlist and checksumOk are the
BIP39 wordlist membership and checksum of Mnemonic::validate. -/
structure Env where
mnemonicMake : Nat → Language → Mnemonic
bip39Seed : String → String → List Nat
bip32FromRaw : List Nat → String → Option KeyPair
walletFromStr : String → Option String
wordlist : Language → List String
checksumOk : List String → Language → Bool

/-- The already-merged argument/config values a flow consumes, one optional
field per relevant clap argument. The earningInfo field is Left a literal
address or Right a derivation path. -/
structure MultiConfig where
mnemonicPassphrase : Option String
language : String
wordCount : Nat
mnemonic : List String
json : Bool
consumingPath : Option String
earningInfo : Option (Either String String)
dbPassword : String
realUser : String
deriving DecidableEq, Repr

/-- DEFAULT_CONSUMING_DERIVATION_PATH from sub_lib::wallet. -/
def defaultConsumingPath : String := "m/44\x27/60\x27/0\x27/0/0"

/-- DEFAULT_EARNING_DERIVATION_PATH from sub_lib::wallet. -/
def defaultEarningPath : String := "m/44\x27/60\x27/0\x27/0/1"

/-- The errors of the password-collection helpers. -/
inductive PasswordError where
| mismatched
| retriesExhausted
deriving DecidableEq, Repr

/-- The Debug formatting of PasswordError, as interpolated by panic. -/
def PasswordError.debugString : PasswordError → String
| .mismatched => "Mismatched"
| .retriesExhausted => "RetriesExhausted"

/-- Modelled from the spec: request_password_with_confirmation
(crate::node_configurator, not under src/). Reads the candidate secret,
prompts for and reads the confirmation, and compares; a mismatch writes the
mismatch message and reports Mismatched. The unit tests of both source files
fix the observable prompt and message sequence. -/
def request_password_with_confirmation
(confirmPrompt mismatchMsg : String) (st : St) :
Except PasswordError String × St :=
let (p1, st) := st.readLine
let st := st.write confirmPrompt
let (p2, st) := st.readLine
if p1 == p2 then (.ok p1, st)
else (.error .mismatched, st.write mismatchMsg)

/-- The bounded retry loop of request_password_with_retry, with the number
of remaining attempts explicit. Each attempt writes the prompt, records a
passphrasePrompted event, and runs the confirmation protocol; a mismatch
with attempts remaining writes the retry notice and loops, and a mismatch on
the final attempt reports RetriesExhausted. -/
def request_password_with_retry_go
(prompt confirmPrompt mismatchMsg : String) :
Nat → St → Except PasswordError String × St
| 0, st => (.error .retriesExhausted, st)
| n + 1, st =>
  let st := (st.write prompt).emit .passphrasePrompted
  match request_password_with_confirmation confirmPrompt mismatchMsg st with
  | (.ok pw, st) => (.ok pw, st)
  | (.error .mismatched, st) =>
    match n with
    | 0 => (.error .retriesExhausted, st)
    | m + 1 =>
      request_password_with_retry_go prompt confirmPrompt mismatchMsg
        (m + 1) (st.write " Try again.\n")
  | (.error e, st) => (.error e, st)

/-- Modelled from the spec: request_password_with_retry
(crate::node_configurator, not under src/): up to a fixed maximum of 3
attempts total, each one prompt cycle of the confirmation protocol; the
unit tests of both source files confirm that two mismatches still allow a
third attempt and that three mismatches produce RetriesExhausted. -/
def request_password_with_retry
(prompt confirmPrompt mismatchMsg : String) (st : St) :
Except PasswordError String × St :=
request_password_with_retry_go prompt confirmPrompt mismatchMsg 3 st

/-- The two flows, used to dispatch the per-configurator trait methods. -/
inductive Flow where
| generate
| recover
deriving DecidableEq, Repr

/-- The intro text written before the passphrase protocol, per flow. -/
def passphraseIntro : Flow → String
| .generate =>
  "\nPlease provide an extra mnemonic passphrase to ensure your wallet is unique\n(NOTE: This passphrase cannot be changed later and still produce the same addresses).\nYou will encrypt your wallet in a following step...\n"
| .recover =>
  "\nPlease enter the passphrase for your mnemonic, or Enter if there is none.\nYou will encrypt your wallet in a following step...\n"

/-- The first prompt of the passphrase protocol, per flow. -/
def passphrasePrompt : Flow → String
| .generate => "  Mnemonic passphrase (recommended): "
| .recover => "  Mnemonic passphrase: "

/-- The warning written when the confirmed passphrase is empty. -/
def blankPassphraseWarning : String :=
"\nWhile ill-advised, proceeding with no mnemonic passphrase.\nPress Enter to continue..."

/-- request_mnemonic_passphrase of both configurators (the two differ only
in their intro text and first prompt): write the intro, run the bounded
confirmation protocol; an empty confirmed passphrase is accepted after the
warning and a one-byte acknowledgment read and becomes None, a non-empty one
becomes Some, and a protocol error panics with its Debug formatting. -/
def request_mnemonic_passphrase (flow : Flow) (st : St) :
Outcome (Option String) :=
let st := st.write (passphraseIntro flow)
match request_password_with_retry (passphrasePrompt flow)
    "  Confirm mnemonic passphrase: " "\nPassphrases do not match." st with
| (.ok mp, st) =>
  if mp.isEmpty then
    let st := st.write blankPassphraseWarning
    .ok none st.readAck
  else .ok (some mp) st
| (.error e, st) => .panicked e.debugString st

/-- make_mnemonic_passphrase of both configurators: a passphrase present in
the merged configuration is used verbatim with no interaction; otherwise the
interactive protocol runs and None (the accepted empty passphrase) becomes
the empty string. -/
def make_mnemonic_passphrase (flow : Flow) (mc : MultiConfig) (st : St) :
Outcome String :=
match mc.mnemonicPassphrase with
| some mp => .ok mp st
| none =>
  (request_mnemonic_passphrase flow st).obind fun r st =>
    .ok (r.getD "") st

/-- Split a character list at separator characters into its maximal runs of
non-separator characters (split followed by dropping empty tokens), with the
current run accumulated in reverse. -/
def splitWordsAux (p : Char → Bool) : List Char → List Char → List String
| cur, [] => if cur.isEmpty then [] else [String.mk cur.reverse]
| cur, c :: cs =>
  if p c then
    if cur.isEmpty then splitWordsAux p [] cs
    else String.mk cur.reverse :: splitWordsAux p [] cs
  else splitWordsAux p (c :: cur) cs

/-- The words of a phrase: split on spaces, dropping empty tokens. -/
def phraseWordsOf (phrase : String) : List String :=
splitWordsAux (fun c => c == ' ') [] phrase.data

/-- Modelled from the spec: Mnemonic::validate of the external bip39 crate
(assumed trusted primitive): a phrase is valid when every word belongs to
the selected languages approved list and the word sequence satisfies the
BIP39 checksum (definable only for the supported lengths); the error texts
are those the unit tests of node_configurator_recover_wallet.rs observe. -/
def mnemonicValidate (env : Env) (phrase : String) (lang : Language) :
Except String Unit :=
let ws := phraseWordsOf phrase
if ws.all fun w => (env.wordlist lang).contains w then
  if env.checksumOk ws lang then .ok () else .error "invalid checksum"
else .error "invalid word in phrase"

/-- Validators::validate_mnemonic_words: wrap a validation failure in a
message naming the exact phrase, the language display name, and the
underlying reason. -/
def Validators.validate_mnemonic_words (env : Env) (phrase : String)
(lang : Language) : Except String Unit :=
match mnemonicValidate env phrase lang with
| .ok _ => .ok ()
| .error e =>
  .error ("\"" ++ phrase ++ "\" is not valid for " ++ nameFromLanguage lang
    ++ " (" ++ e ++ ")")

/-- NodeConfiguratorRecoverWallet::request_mnemonic_phrase: prompt, read one
buffered chunk of input, split it on space, tab and newline, drop empty
tokens and trim each word. -/
def NodeConfiguratorRecoverWallet.request_mnemonic_phrase (st : St) :
List String × St :=
let st := st.write "\nPlease provide your wallet\x27s mnemonic phrase.\nIt must be 12, 15, 18, 21, or 24 words long.\n"
let st := st.write "Mnemonic phrase: "
let st := st.emit .mnemonicPrompted
let (chunk, st) := st.readLine
(((chunk.split fun c => c == ' ' || c == '\t' || c == '\n').filter
  fun s => ¬ s.isEmpty).map String.trim, st)

/-- NodeConfiguratorRecoverWallet::get_mnemonic: take the phrase words from
the merged configuration if present, otherwise solicit them interactively;
join with spaces, validate, and on failure exit the process with status 1
and the formatted message. -/
def NodeConfiguratorRecoverWallet.get_mnemonic (env : Env) (lang : Language)
(mc : MultiConfig) (st : St) : Outcome Mnemonic :=
let (phraseWords, st) :=
  if mc.mnemonic.isEmpty then NodeConfiguratorRecoverWallet.request_mnemonic_phrase st
  else (mc.mnemonic, st)
let phrase := String.intercalate " " phraseWords
match Validators.validate_mnemonic_words env phrase lang with
| .ok _ => .ok ⟨phrase⟩ st
| .error e => .exited 1 e st

/-- Modelled from the spec: MnemonicType::for_word_count of the external
bip39 crate: defined exactly for the supported word counts. -/
def mnemonicTypeForWordCount (n : Nat) : Option Nat :=
if n == 12 || n == 15 || n == 18 || n == 21 || n == 24 then some n else none

/-- The body of the earning-wallet JSON object in address-only mode. -/
def jsonAddressOnlyBody (w : String) : String :=
"\"address\": \"" ++ w ++ "\""

/-- The body of the earning-wallet JSON object in derivation-path mode. -/
def jsonPathBody (path w : String) : String :=
"\"derivationPath\": \"" ++ path ++ "\",\n\"address\": \"" ++ w ++ "\""

/-- The structured (JSON) report of report_wallet_information, up to the
indentation that unindent strips. -/
def jsonReport (phrase cp cw body : String) : String :=
"\n\x7b\n\"mnemonicPhrase\": \"" ++ phrase
  ++ "\",\n\"consumingWallet\": \x7b\n\"derivationPath\": \"" ++ cp
  ++ "\",\n\"address\": \"" ++ cw
  ++ "\"\n\x7d,\n\"earningWallet\": \x7b\n" ++ body ++ "\n\x7d\n\x7d\n"

/-- The human-readable intro of report_wallet_information. -/
def recordPhraseIntro : String :=
"\n\nRecord the following mnemonic recovery phrase in the sequence provided\nand keep it secret! You cannot recover your wallet without these words\nplus your mnemonic passphrase if you provided one.\n\n"

/-- NodeConfiguratorGenerateWallet::report_wallet_information: build the
consuming key pair from the seed and consuming derivation path (panicking,
with a message naming the path, if that fails), then format either the JSON
or the human-readable report; in derivation-path mode the earning key pair
is likewise built from the seed (panicking, with a message naming the path,
on failure), and in address mode the literal address is re-parsed
(panicking if it no longer parses). -/
def NodeConfiguratorGenerateWallet.report_wallet_information (env : Env)
(m : Mnemonic) (seed : List Nat) (cp : String) (ew : Either String String)
(json : Bool) (st : St) : Outcome Unit :=
match env.bip32FromRaw seed cp with
| none =>
  .panicked ("Couldn\x27t make key pair from consuming derivation path \x27"
    ++ cp ++ "\x27") st
| some ck =>
  let st := st.emit (.walletDerived cp)
  let consumingWallet := ck.address
  if json then
    match ew with
    | .left addr =>
      match env.walletFromStr addr with
      | none => .panicked "Address doesn\x27t work anymore" st
      | some w =>
        .ok () (st.write (jsonReport m.phrase cp consumingWallet
          (jsonAddressOnlyBody w)))
    | .right ep =>
      match env.bip32FromRaw seed ep with
      | none =>
        .panicked ("Couldn\x27t make key pair from earning derivation path \x27"
          ++ ep ++ "\x27") st
      | some ek =>
        let st := st.emit (.walletDerived ep)
        .ok () (st.write (jsonReport m.phrase cp consumingWallet
          (jsonPathBody ep ek.address)))
  else
    let st := st.write recordPhraseIntro
    let st := st.write m.phrase
    let st := st.write "\n\n"
    let st := st.write ("Consuming Wallet (" ++ cp ++ "): "
      ++ consumingWallet ++ "\n")
    match ew with
    | .left addr =>
      match env.walletFromStr addr with
      | none => .panicked "Address doesn\x27t work anymore" st
      | some w => .ok () (st.write ("  Earning Wallet: " ++ w ++ "\n"))
    | .right ep =>
      match env.bip32FromRaw seed ep with
      | none =>
        .panicked ("Couldn\x27t make key pair from earning derivation path \x27"
          ++ ep ++ "\x27") st
      | some ek =>
        let st := st.emit (.walletDerived ep)
        .ok () (st.write ("  Earning Wallet (" ++ ep ++ "): "
          ++ ek.address ++ "\n"))

/-- NodeConfiguratorGenerateWallet::make_mnemonic_seed: look up language and
word count, generate a fresh mnemonic through the factory, derive the seed
from it and the passphrase, report the wallet information, and return the
seed. -/
def NodeConfiguratorGenerateWallet.make_mnemonic_seed (env : Env)
(mc : MultiConfig) (pw cp : String) (ew : Either String String) (st : St) :
Outcome (List Nat) :=
let lang := languageFromName mc.language
match mnemonicTypeForWordCount mc.wordCount with
| none => .panicked "--word-count is not properly value-restricted" st
| some n =>
  let m := env.mnemonicMake n lang
  let st := st.emit .mnemonicGenerated
  let seed := env.bip39Seed m.phrase pw
  let st := st.emit .seedDerived
  (NodeConfiguratorGenerateWallet.report_wallet_information env m seed cp ew
    mc.json st).obind fun _ st => .ok seed st

/-- NodeConfiguratorRecoverWallet::make_mnemonic_seed: look up the language,
obtain and validate the mnemonic, and derive the seed from its phrase and
the passphrase. -/
def NodeConfiguratorRecoverWallet.make_mnemonic_seed (env : Env)
(mc : MultiConfig) (pw : String) (st : St) : Outcome (List Nat) :=
let lang := languageFromName mc.language
(NodeConfiguratorRecoverWallet.get_mnemonic env lang mc st).obind
  fun m st => .ok (env.bip39Seed m.phrase pw) (st.emit .seedDerived)

/-- The DerivationPathWalletInfo record of WalletCreationConfig. -/
structure DerivationPathWalletInfo where
mnemonicSeed : List Nat
dbPassword : String
consumingDerivationPathOpt : Option String
deriving DecidableEq, Repr

/-- The immutable WalletCreationConfig result record. -/
structure WalletCreationConfig where
earningWalletAddressOpt : Option String
derivationPathInfoOpt : Option DerivationPathWalletInfo
realUser : String
deriving DecidableEq, Repr

/-- Modelled from the spec: WalletCreationConfigMaker::make_wallet_creation_config
(crate::node_configurator, not under src/): collect the passphrase, default
the consuming path and the earning information, derive the seed through the
flow-specific make_mnemonic_seed, resolve the earning address (verbatim in
address mode, as the spec says the argument source supplies it already
validated; derived from the same seed in path mode, a malformed path being
fatal), and assemble the result record. The unit tests of both source files
fix the shape of the assembled record. -/
def make_wallet_creation_config (flow : Flow) (env : Env) (mc : MultiConfig)
(st : St) : Outcome WalletCreationConfig :=
(make_mnemonic_passphrase flow mc st).obind fun pw st =>
let cp := mc.consumingPath.getD defaultConsumingPath
let ew := mc.earningInfo.getD (.right defaultEarningPath)
let seedOutcome := match flow with
  | .generate => NodeConfiguratorGenerateWallet.make_mnemonic_seed env mc pw cp ew st
  | .recover => NodeConfiguratorRecoverWallet.make_mnemonic_seed env mc pw st
seedOutcome.obind fun seed st =>
let earningOutcome : Outcome String := match ew with
  | .left addr => .ok addr st
  | .right path =>
    match env.bip32FromRaw seed path with
    | none =>
      .panicked ("Couldn\x27t make key pair from earning derivation path \x27"
        ++ path ++ "\x27") st
    | some kp => .ok kp.address (st.emit (.walletDerived path))
earningOutcome.obind fun earningAddress st =>
.ok
  { earningWalletAddressOpt := some earningAddress,
    derivationPathInfoOpt := some
      { mnemonicSeed := seed,
        dbPassword := mc.dbPassword,
        consumingDerivationPathOpt := some cp },
    realUser := mc.realUser }
  (st.emit .configAssembled)

/-- NodeConfiguratorGenerateWallet::parse_args: the provisioning guard runs
first; an existing mnemonic seed panics, a failed existence check becomes a
configurator error attributed to seed, and only on a clean check does the
wallet-creation configuration get built. -/
def NodeConfiguratorGenerateWallet.parse_args (env : Env) (mc : MultiConfig)
(mnemonicSeedExists : Except PersistentConfigError Bool) (st : St) :
Outcome WalletCreationConfig :=
match mnemonicSeedExists with
| .ok true =>
  .panicked "Can\x27t generate wallets: mnemonic seed has already been created" st
| .ok false => make_wallet_creation_config .generate env mc st
| .error pce => .err (pce.intoConfiguratorError "seed") st

/-- NodeConfiguratorRecoverWallet::parse_args: the provisioning guard runs
first; an existing mnemonic seed exits the process with status 1, a failed
existence check becomes a configurator error attributed to seed, and only on
a clean check does the wallet-creation configuration get built. -/
def NodeConfiguratorRecoverWallet.parse_args (env : Env) (mc : MultiConfig)
(mnemonicSeedExists : Except PersistentConfigError Bool) (st : St) :
Outcome WalletCreationConfig :=
match mnemonicSeedExists with
| .ok true =>
  .exited 1 "Can\x27t recover wallets: mnemonic seed has already been created" st
| .ok false => make_wallet_creation_config .recover env mc st
| .error pce => .err (pce.intoConfiguratorError "seed") st

/-- The number of passphrase prompt cycles recorded in a trace. -/
def promptCycles (evts : List Event) : Nat :=
evts.countP fun e => e == Event.passphrasePrompted

/-- Whether an outcome is a panic with the given message. -/
def Outcome.isPanickedWith (o : Outcome α) (msg : String) : Bool :=
match o with
| .panicked m _ => m == msg
| _ => false

/-- Whether an outcome is a normal return. -/
def Outcome.isOk (o : Outcome α) : Bool :=
match o with
| .ok _ _ => true
| _ => false

/-- The seed a seed-derivation outcome returned, if it returned normally. -/
def seedOf (o : Outcome (List Nat)) : Option (List Nat) :=
match o with
| .ok s _ => some s
| _ => none

/-- A small concrete environment used to evaluate the theorems on closed
inputs: the seed is the pair of input lengths, key pairs always derive, and
the checksum accepts exactly twelve-word phrases over a four-word list. -/
def toyEnv : Env :=
{ mnemonicMake := fun n _ => ⟨String.intercalate " " (List.replicate n "alpha")⟩,
  bip39Seed := fun phrase pw => [phrase.length, pw.length],
  bip32FromRaw := fun seed path =>
    some ⟨"0x" ++ toString (seed.foldl (fun a b => a + b) 0) ++ path⟩,
  walletFromStr := fun s => some s,
  wordlist := fun _ => ["alpha", "beta", "gamma", "delta"],
  checksumOk := fun ws _ => ws.length == 12 }

/-- A concrete environment in which the consuming path cp derives but every
other path is malformed. -/
def onlyConsumingEnv : Env :=
{ toyEnv with bip32FromRaw := fun _ path =>
    if path == "cp" then some ⟨"ck"⟩ else none }

/-- A concrete environment in which no derivation path ever derives. -/
def noKeyEnv : Env :=
{ toyEnv with bip32FromRaw := fun _ _ => none }

/-- A concrete merged configuration with every optional value absent. -/
def emptyConfig : MultiConfig :=
{ mnemonicPassphrase := none, language := "english", wordCount := 12,
  mnemonic := [], json := false, consumingPath := none, earningInfo := none,
  dbPassword := "password", realUser := "user" }

/-- Claim C1: when the persisted-state check reports an existing mnemonic
seed, the generate flow panics with its message while the recover flow exits
the process with status 1 and its message, for every invocation of the
respective parse_args. -/
theorem guard_asymmetry_on_existing_seed :
∀ (env : Env) (mc : MultiConfig) (st : St),
NodeConfiguratorGenerateWallet.parse_args env mc (.ok true) st =
  .panicked "Can\x27t generate wallets: mnemonic seed has already been created" st
∧ NodeConfiguratorRecoverWallet.parse_args env mc (.ok true) st =
  .exited 1 "Can\x27t recover wallets: mnemonic seed has already been created" st :=
fun _ _ _ => ⟨rfl, rfl⟩

/-- Claim C2: when the persisted-state check reports an existing mnemonic
seed, both flows terminate with the interactive state and the event trace
exactly as they were: no mnemonic is generated or solicited, no passphrase
is collected, and no seed or wallet derivation runs. -/
theorem guard_blocks_all_secret_steps :
∀ (env : Env) (mc : MultiConfig) (st : St),
(NodeConfiguratorGenerateWallet.parse_args env mc (.ok true) st).finalSt = st
∧ (NodeConfiguratorRecoverWallet.parse_args env mc (.ok true) st).finalSt = st :=
fun _ _ _ => ⟨rfl, rfl⟩

/-- Claim C7: a mnemonic passphrase present in the merged configuration
skips the whole interactive protocol in both flows: the state (stdin,
stdout, trace) is untouched and the supplied value is returned verbatim. -/
theorem supplied_passphrase_skips_protocol :
∀ (flow : Flow) (mc : MultiConfig) (mp : String) (st : St),
make_mnemonic_passphrase flow { mc with mnemonicPassphrase := some mp } st =
  .ok mp st :=
fun _ _ _ _ => rfl

/-- Claim C10: when the persisted-state existence check itself fails, both
parse_args return the structured configurator error attributed to the seed
parameter, with the interactive state and trace untouched — neither a panic
nor a process exit. -/
theorem seed_check_failure_returns_structured_error :
∀ (env : Env) (mc : MultiConfig) (pce : PersistentConfigError) (st : St),
NodeConfiguratorGenerateWallet.parse_args env mc (.error pce) st =
  .err ⟨"seed", pce⟩ st
∧ NodeConfiguratorRecoverWallet.parse_args env mc (.error pce) st =
  .err ⟨"seed", pce⟩ st :=
fun _ _ _ _ => ⟨rfl, rfl⟩

/-- Claim C6: in both flows, an interactively collected passphrase confirmed
as the empty string is accepted: the warning is written, one acknowledgment
read is consumed, and the protocol hands the empty string on as the
passphrase. -/
theorem empty_passphrase_accepted_with_warning :
∀ (flow : Flow) (mc : MultiConfig) (ack : String) (rest out : List String)
(evts : List Event),
∃ stF : St,
make_mnemonic_passphrase flow { mc with mnemonicPassphrase := none }
  ⟨"" :: "" :: ack :: rest, out, evts⟩ = .ok "" stF
∧ stF.stdin = rest
∧ stF.stdout = out ++ [passphraseIntro flow, passphrasePrompt flow,
    "  Confirm mnemonic passphrase: ", blankPassphraseWarning]
∧ stF.events = evts ++ [.passphrasePrompted] := by
intro flow mc ack rest out evts
refine ⟨_, rfl, ?_, ?_, ?_⟩ <;>
  simp [make_mnemonic_passphrase, request_mnemonic_passphrase,
    request_password_with_retry, request_password_with_retry_go,
    request_password_with_confirmation, St.readLine, St.write, St.emit,
    St.readAck, Outcome.obind]

/-- Writing to stdout leaves the event trace unchanged. -/
@[simp] theorem St.write_events (st : St) (s : String) :
(st.write s).events = st.events := rfl

/-- Writing to stdout leaves stdin unchanged. -/
@[simp] theorem St.write_stdin (st : St) (s : String) :
(st.write s).stdin = st.stdin := rfl

/-- Recording an event appends it to the trace. -/
@[simp] theorem St.emit_events (st : St) (e : Event) :
(st.emit e).events = st.events ++ [e] := rfl

/-- Recording an event leaves stdin unchanged. -/
@[simp] theorem St.emit_stdin (st : St) (e : Event) :
(st.emit e).stdin = st.stdin := rfl

/-- The acknowledgment read leaves the event trace unchanged. -/
@[simp] theorem St.readAck_events (st : St) :
st.readAck.events = st.events := by
unfold St.readAck
split <;> rfl

/-- Reading a line leaves the event trace unchanged. -/
@[simp] theorem St.readLine_events (st : St) :
(st.readLine.2).events = st.events := by
unfold St.readLine
split <;> rfl

/-- The confirmation protocol only reads and writes: the event trace is
untouched. -/
theorem confirmation_preserves_events (c m : String) (st : St) :
((request_password_with_confirmation c m st).2).events = st.events := by
rcases st with ⟨stdin, stdout, evts⟩
cases stdin with
| nil =>
  simp only [request_password_with_confirmation, St.readLine, St.write]
  split <;> rfl
| cons a rest =>
  cases rest <;>
    simp only [request_password_with_confirmation, St.readLine, St.write] <;>
    split <;> rfl

/-- Each pass of the bounded retry loop records at most one prompt cycle,
so a loop budget of n attempts adds at most n cycles to the trace. -/
theorem retry_go_prompt_bound (p c m : String) :
∀ (n : Nat) (st : St),
promptCycles (((request_password_with_retry_go p c m n st).2).events)
  ≤ promptCycles st.events + n := by
intro n
induction n with
| zero =>
  intro st
  simp [request_password_with_retry_go]
| succ k ih =>
  intro st
  have hconf :=
    confirmation_preserves_events c m ((st.write p).emit .passphrasePrompted)
  unfold request_password_with_retry_go
  rcases hc : request_password_with_confirmation c m
      ((st.write p).emit .passphrasePrompted) with ⟨r, st2⟩
  rw [hc] at hconf
  simp only at hconf
  have hst2 : promptCycles st2.events = promptCycles st.events + 1 := by
    rw [promptCycles, hconf]
    simp [promptCycles, List.countP_append]
  cases r with
  | ok pw =>
    simp only [hc]
    omega
  | error e =>
    cases e with
    | mismatched =>
      cases k with
      | zero =>
        simp only [hc]
        omega
      | succ j =>
        simp only [hc]
        have hrec := ih (st2.write " Try again.\n")
        simp only [St.write_events] at hrec
        omega
    | retriesExhausted =>
      simp only [hc]
      omega

/-- The final trace of the passphrase request is exactly the trace the
bounded retry loop left behind: the empty-passphrase warning and the
acknowledgment read record no events. -/
theorem request_mnemonic_passphrase_events (flow : Flow) (st : St) :
((request_mnemonic_passphrase flow st).finalSt).events =
  ((request_password_with_retry (passphrasePrompt flow)
    "  Confirm mnemonic passphrase: " "\nPassphrases do not match."
    (st.write (passphraseIntro flow))).2).events := by
unfold request_mnemonic_passphrase
dsimp only
rcases hr : request_password_with_retry (passphrasePrompt flow)
    "  Confirm mnemonic passphrase: " "\nPassphrases do not match."
    (st.write (passphraseIntro flow)) with ⟨r, st2⟩
cases r with
| ok mp =>
  by_cases hmp : mp.isEmpty = true <;> simp [hmp, Outcome.finalSt]
| error e => simp [Outcome.finalSt]

/-- Claim C3: the passphrase confirmation protocol performs at most 3
prompt cycles on any input, and three consecutive mismatches make the
request panic through the RetriesExhausted error of the retry helper, so a
4th prompt cycle never occurs. -/
theorem passphrase_retry_bound (flow : Flow) (p1 c1 p2 c2 p3 c3 : String)
(rest out : List String) (evts : List Event)
(h1 : p1 ≠ c1) (h2 : p2 ≠ c2) (h3 : p3 ≠ c3) :
(∀ st : St,
  promptCycles ((request_mnemonic_passphrase flow st).finalSt.events)
    ≤ promptCycles st.events + 3)
∧ (request_mnemonic_passphrase flow
    ⟨p1 :: c1 :: p2 :: c2 :: p3 :: c3 :: rest, out, evts⟩).isPanickedWith
    "RetriesExhausted" = true := by
constructor
· intro st
  rw [request_mnemonic_passphrase_events]
  have hb := retry_go_prompt_bound (passphrasePrompt flow)
    "  Confirm mnemonic passphrase: " "\nPassphrases do not match." 3
    (st.write (passphraseIntro flow))
  have : promptCycles ((st.write (passphraseIntro flow)).events)
      = promptCycles st.events := by
    simp [St.write]
  rw [request_password_with_retry]
  omega
· simp [request_mnemonic_passphrase, request_password_with_retry,
    request_password_with_retry_go, request_password_with_confirmation,
    St.readLine, St.write, St.emit, Outcome.isPanickedWith,
    PasswordError.debugString, h1, h2, h3]

/-- Witness for the retry bound: the concrete three-mismatch input of the
unit test panics with RetriesExhausted. -/
theorem passphrase_retry_bound_witness :
(("one" : String) ≠ "eno" ∧ ("two" : String) ≠ "owt"
  ∧ ("three" : String) ≠ "eerht")
∧ (request_mnemonic_passphrase .generate
    ⟨["one", "eno", "two", "owt", "three", "eerht"], [], []⟩).isPanickedWith
    "RetriesExhausted" = true :=
⟨⟨by decide, by decide, by decide⟩,
 (passphrase_retry_bound .generate "one" "eno" "two" "owt" "three" "eerht"
   [] [] [] (by decide) (by decide) (by decide)).2⟩

/-- Whether report_wallet_information returns normally depends only on the
environment and its arguments, never on the interactive state. -/
theorem report_isOk_const (env : Env) (m : Mnemonic) (seed : List Nat)
(cp : String) (ew : Either String String) (json : Bool) (st st2 : St) :
(NodeConfiguratorGenerateWallet.report_wallet_information env m seed cp ew
  json st).isOk
= (NodeConfiguratorGenerateWallet.report_wallet_information env m seed cp ew
  json st2).isOk := by
unfold NodeConfiguratorGenerateWallet.report_wallet_information
cases hc : env.bip32FromRaw seed cp with
| none => rfl
| some ck =>
  cases json with
  | true =>
    cases ew with
    | left addr =>
      cases hw : env.walletFromStr addr <;> simp [hw, Outcome.isOk]
    | right ep =>
      cases hE : env.bip32FromRaw seed ep <;> simp [hE, Outcome.isOk]
  | false =>
    cases ew with
    | left addr =>
      cases hw : env.walletFromStr addr <;> simp [hw, Outcome.isOk]
    | right ep =>
      cases hE : env.bip32FromRaw seed ep <;> simp [hE, Outcome.isOk]

/-- Sequencing a unit outcome with a constant seed return yields that seed
exactly when the outcome was a normal return. -/
theorem seedOf_obind_ok (o : Outcome Unit) (seed : List Nat) :
seedOf (o.obind fun _ st => .ok seed st)
  = if o.isOk then some seed else none := by
cases o <;> rfl

/-- Claim C8: seed derivation is deterministic. In the generate flow the
returned seed is the same across invocations with any two interactive
states; in the recover flow, with the phrase supplied in the configuration,
the same holds, and the seed is exactly the BIP39 seed function applied to
the joined phrase and the passphrase — so equal (mnemonic, passphrase)
inputs always produce equal seeds, in and across both flows. -/
theorem seed_derivation_deterministic (env : Env) (mc : MultiConfig)
(pw cp : String) (ew : Either String String) (w : String) (ws : List String)
(st st2 : St) :
(seedOf (NodeConfiguratorGenerateWallet.make_mnemonic_seed env mc pw cp ew st)
  = seedOf (NodeConfiguratorGenerateWallet.make_mnemonic_seed env mc pw cp ew st2))
∧ (seedOf (NodeConfiguratorRecoverWallet.make_mnemonic_seed env
    { mc with mnemonic := w :: ws } pw st)
  = seedOf (NodeConfiguratorRecoverWallet.make_mnemonic_seed env
    { mc with mnemonic := w :: ws } pw st2))
∧ (seedOf (NodeConfiguratorRecoverWallet.make_mnemonic_seed env
    { mc with mnemonic := w :: ws } pw st) = none
  ∨ seedOf (NodeConfiguratorRecoverWallet.make_mnemonic_seed env
    { mc with mnemonic := w :: ws } pw st)
    = some (env.bip39Seed (String.intercalate " " (w :: ws)) pw)) := by
refine ⟨?_, ?_, ?_⟩
· unfold NodeConfiguratorGenerateWallet.make_mnemonic_seed
  dsimp only
  cases hn : mnemonicTypeForWordCount mc.wordCount with
  | none => rfl
  | some n =>
    dsimp only
    rw [seedOf_obind_ok, seedOf_obind_ok,
      report_isOk_const env (env.mnemonicMake n (languageFromName mc.language))
        (env.bip39Seed (env.mnemonicMake n (languageFromName mc.language)).phrase pw)
        cp ew mc.json ((st.emit .mnemonicGenerated).emit .seedDerived)
        ((st2.emit .mnemonicGenerated).emit .seedDerived)]
· unfold NodeConfiguratorRecoverWallet.make_mnemonic_seed
    NodeConfiguratorRecoverWallet.get_mnemonic
  dsimp only
  cases hv : Validators.validate_mnemonic_words env
      (String.intercalate " " (w :: ws)) (languageFromName mc.language) <;>
    simp [hv, Outcome.obind, seedOf]
· unfold NodeConfiguratorRecoverWallet.make_mnemonic_seed
    NodeConfiguratorRecoverWallet.get_mnemonic
  dsimp only
  cases hv : Validators.validate_mnemonic_words env
      (String.intercalate " " (w :: ws)) (languageFromName mc.language) <;>
    simp [hv, Outcome.obind, seedOf]

/-- Claim C5: in the recover flow, validation of a supplied phrase succeeds
exactly when every word belongs to the selected languages wordlist and the
BIP39 checksum holds, and a validation failure makes get_mnemonic terminate
non-fatally with exit status 1 and a message naming the exact phrase, the
language and the underlying reason. -/
theorem mnemonic_validation_iff_and_failure_exit (env : Env)
(lang : Language) (mc : MultiConfig) (st : St) (w : String)
(ws : List String) (r : String)
(hval : mnemonicValidate env (String.intercalate " " (w :: ws)) lang
  = .error r) :
(∀ (phrase : String) (lang2 : Language),
  Validators.validate_mnemonic_words env phrase lang2 = .ok () ↔
    ((phraseWordsOf phrase).all
        (fun x => (env.wordlist lang2).contains x) = true
      ∧ env.checksumOk (phraseWordsOf phrase) lang2 = true))
∧ NodeConfiguratorRecoverWallet.get_mnemonic env lang
    { mc with mnemonic := w :: ws } st
  = .exited 1 ("\"" ++ String.intercalate " " (w :: ws)
      ++ "\" is not valid for " ++ nameFromLanguage lang
      ++ " (" ++ r ++ ")") st := by
constructor
· intro phrase lang2
  unfold Validators.validate_mnemonic_words mnemonicValidate
  cases h1 : (phraseWordsOf phrase).all
      fun x => (env.wordlist lang2).contains x <;>
    cases h2 : env.checksumOk (phraseWordsOf phrase) lang2 <;>
    simp only [h1, h2, if_true, if_false, Bool.false_eq_true,
      Bool.true_eq_false, and_self, and_false, false_and, ite_true,
      ite_false] <;>
    simp
· unfold NodeConfiguratorRecoverWallet.get_mnemonic
    Validators.validate_mnemonic_words
  simp [hval]

/-- Witness for the validation claim: the nonsense phrase of the unit test
fails word validation in the toy environment and get_mnemonic exits with
status 1 and the exact message. -/
theorem mnemonic_validation_iff_and_failure_exit_witness :
mnemonicValidate toyEnv "ooga booga" .english = .error "invalid word in phrase"
∧ NodeConfiguratorRecoverWallet.get_mnemonic toyEnv .english
    { emptyConfig with mnemonic := ["ooga", "booga"] } ⟨[], [], []⟩
  = .exited 1 "\"ooga booga\" is not valid for English (invalid word in phrase)"
      ⟨[], [], []⟩ :=
⟨rfl,
 (mnemonic_validation_iff_and_failure_exit toyEnv .english emptyConfig
   ⟨[], [], []⟩ "ooga" ["booga"] "invalid word in phrase" rfl).2⟩

/-- Claim C9: at wallet-derivation time inside reporting, a consuming
derivation path from which no key pair can be built panics with a message
naming that path, and likewise an earning derivation path, rather than
returning a recoverable error. -/
theorem malformed_derivation_path_is_fatal (env : Env) (m : Mnemonic)
(seed : List Nat) (cp ep : String) (ew : Either String String) (json : Bool)
(st : St) :
(env.bip32FromRaw seed cp = none →
  NodeConfiguratorGenerateWallet.report_wallet_information env m seed cp ew
      json st
    = .panicked ("Couldn\x27t make key pair from consuming derivation path \x27"
        ++ cp ++ "\x27") st)
∧ (∀ ck : KeyPair, env.bip32FromRaw seed cp = some ck →
    env.bip32FromRaw seed ep = none →
    (NodeConfiguratorGenerateWallet.report_wallet_information env m seed cp
        (.right ep) json st).isPanickedWith
      ("Couldn\x27t make key pair from earning derivation path \x27"
        ++ ep ++ "\x27") = true) := by
constructor
· intro hc
  unfold NodeConfiguratorGenerateWallet.report_wallet_information
  rw [hc]
· intro ck hck he
  unfold NodeConfiguratorGenerateWallet.report_wallet_information
  rw [hck]
  cases json <;> simp [he, Outcome.isPanickedWith]

/-- Witness for the fatal-path claim: in an environment where no path
derives, the consuming-path panic occurs; in one where only the consuming
path derives, the earning-path panic occurs. -/
theorem malformed_derivation_path_is_fatal_witness :
(noKeyEnv.bip32FromRaw [1] "cp" = none
 ∧ NodeConfiguratorGenerateWallet.report_wallet_information noKeyEnv ⟨"m"⟩ [1]
     "cp" (.right "ep") false ⟨[], [], []⟩
   = .panicked "Couldn\x27t make key pair from consuming derivation path \x27cp\x27"
       ⟨[], [], []⟩)
∧ (onlyConsumingEnv.bip32FromRaw [1] "cp" = some ⟨"ck"⟩
 ∧ onlyConsumingEnv.bip32FromRaw [1] "ep" = none
 ∧ (NodeConfiguratorGenerateWallet.report_wallet_information onlyConsumingEnv
      ⟨"m"⟩ [1] "cp" (.right "ep") false ⟨[], [], []⟩).isPanickedWith
      "Couldn\x27t make key pair from earning derivation path \x27ep\x27" = true) :=
⟨⟨rfl,
  (malformed_derivation_path_is_fatal noKeyEnv ⟨"m"⟩ [1] "cp" "ep"
    (.right "ep") false ⟨[], [], []⟩).1 rfl⟩,
 ⟨rfl, rfl,
  (malformed_derivation_path_is_fatal onlyConsumingEnv ⟨"m"⟩ [1] "cp" "ep"
    (.right "ep") false ⟨[], [], []⟩).2 ⟨"ck"⟩ rfl rfl⟩⟩

/-- Claim C4 counterexample: reporting does derive new key material — at a
concrete input, the report step itself records the consuming and earning
wallet derivations in the trace (it builds both key pairs from the seed),
so it does not merely format values already computed. -/
theorem reporting_derives_key_material_counterexample :
(NodeConfiguratorGenerateWallet.report_wallet_information toyEnv ⟨"m"⟩ [1]
  "cp" (.right "ep") false ⟨[], [], []⟩).finalSt.events
  = [.walletDerived "cp", .walletDerived "ep"] := rfl

/-- Claim C4 amended: reporting formats the seed computed by the
seed-derivation stage and returns it unchanged, but it derives the consuming
and (in path mode) earning key pairs itself, and it runs inside the
seed-derivation step — its derivations are recorded before config assembly —
while consuming no input (it never re-prompts). -/
theorem reporting_within_seed_stage (env : Env) (mc : MultiConfig)
(pw cp ep : String) (st : St) (n : Nat) (ck ek : KeyPair)
(hw : mnemonicTypeForWordCount mc.wordCount = some n)
(hjson : mc.json = false)
(hc : env.bip32FromRaw
  (env.bip39Seed (env.mnemonicMake n (languageFromName mc.language)).phrase pw)
  cp = some ck)
(he : env.bip32FromRaw
  (env.bip39Seed (env.mnemonicMake n (languageFromName mc.language)).phrase pw)
  ep = some ek) :
∃ stF : St,
NodeConfiguratorGenerateWallet.make_mnemonic_seed env mc pw cp (.right ep) st
  = .ok (env.bip39Seed
      (env.mnemonicMake n (languageFromName mc.language)).phrase pw) stF
∧ stF.stdin = st.stdin
∧ stF.events = st.events
    ++ [.mnemonicGenerated, .seedDerived, .walletDerived cp,
        .walletDerived ep] := by
unfold NodeConfiguratorGenerateWallet.make_mnemonic_seed
dsimp only
rw [hw]
dsimp only
unfold NodeConfiguratorGenerateWallet.report_wallet_information
rw [hc]
dsimp only
rw [hjson]
simp only [Bool.false_eq_true, if_false]
rw [he]
dsimp only [Outcome.obind]
exact ⟨_, rfl, by simp, by simp⟩

/-- Witness for the amended reporting claim, at the toy environment. -/
theorem reporting_within_seed_stage_witness :
(mnemonicTypeForWordCount emptyConfig.wordCount = some 12
 ∧ emptyConfig.json = false)
∧ ∃ stF : St,
NodeConfiguratorGenerateWallet.make_mnemonic_seed toyEnv emptyConfig "pw"
    "cp" (.right "ep") ⟨[], [], []⟩
  = .ok (toyEnv.bip39Seed
      (toyEnv.mnemonicMake 12 (languageFromName emptyConfig.language)).phrase
      "pw") stF
∧ stF.stdin = (⟨[], [], []⟩ : St).stdin
∧ stF.events = (⟨[], [], []⟩ : St).events
    ++ [.mnemonicGenerated, .seedDerived, .walletDerived "cp",
        .walletDerived "ep"] :=
⟨⟨rfl, rfl⟩,
 reporting_within_seed_stage toyEnv emptyConfig "pw" "cp" "ep" ⟨[], [], []⟩
   12 ⟨"0x73cp"⟩ ⟨"0x73ep"⟩ rfl rfl rfl rfl⟩

end Masq
